import Mathlib

/-!
Shallow embedding of `src/scan-src/scan.c` (VoteBox barcode scanner driver).

The C program drives a GPIO pin to power-cycle a barcode scanner, polls the
scanner's input-event device with an 800 ms ceiling, and on readiness reads
`struct input_event` records in a tight loop, translating key-press events
to ASCII through `keymap` until the Enter key or a full buffer finalizes the
code, which is printed on standard output.

External interactions (poll results, read results, GPIO writes, sleeps,
diagnostic reports, standard output) are modelled explicitly: the
environment supplies a list of poll outcomes and a list of read outcomes,
and the embedding returns the trace of observable actions together with the
value `scan` returns (`none` when the program would block forever waiting
for input the environment never supplies).
-/

/-- `MAXCODE` from scan.c: scan buffer size. -/
def MAXCODE : Nat := 64

/-- `EV_KEY` from linux/input-event-codes.h. -/
def EV_KEY : Nat := 1

def KEY_1 : Nat := 2
def KEY_2 : Nat := 3
def KEY_3 : Nat := 4
def KEY_4 : Nat := 5
def KEY_5 : Nat := 6
def KEY_6 : Nat := 7
def KEY_7 : Nat := 8
def KEY_8 : Nat := 9
def KEY_9 : Nat := 10
def KEY_0 : Nat := 11
def KEY_MINUS : Nat := 12
def KEY_EQUAL : Nat := 13
def KEY_Q : Nat := 16
def KEY_W : Nat := 17
def KEY_E : Nat := 18
def KEY_R : Nat := 19
def KEY_T : Nat := 20
def KEY_Y : Nat := 21
def KEY_U : Nat := 22
def KEY_I : Nat := 23
def KEY_O : Nat := 24
def KEY_P : Nat := 25
def KEY_LEFTBRACE : Nat := 26
def KEY_RIGHTBRACE : Nat := 27
def KEY_ENTER : Nat := 28
def KEY_A : Nat := 30
def KEY_S : Nat := 31
def KEY_D : Nat := 32
def KEY_F : Nat := 33
def KEY_G : Nat := 34
def KEY_H : Nat := 35
def KEY_J : Nat := 36
def KEY_K : Nat := 37
def KEY_L : Nat := 38
def KEY_SEMICOLON : Nat := 39
def KEY_APOSTROPHE : Nat := 40
def KEY_GRAVE : Nat := 41
def KEY_LEFTSHIFT : Nat := 42
def KEY_BACKSLASH : Nat := 43
def KEY_Z : Nat := 44
def KEY_X : Nat := 45
def KEY_C : Nat := 46
def KEY_V : Nat := 47
def KEY_B : Nat := 48
def KEY_N : Nat := 49
def KEY_M : Nat := 50
def KEY_COMMA : Nat := 51
def KEY_DOT : Nat := 52
def KEY_SLASH : Nat := 53
def KEY_RIGHTSHIFT : Nat := 54
def KEY_SPACE : Nat := 57

/-- `INT_MAX` for a 32-bit C `int` (limits.h). -/
def INT_MAX : Int := 2147483647

/-- `sizeof(struct input_event)` on a 64-bit Linux host (16-byte
`struct timeval` plus `__u16 type`, `__u16 code`, `__s32 value`). -/
def EVENT_SIZE : Nat := 24

/-- The C function `char keymap(int code, int shift)`: maps a Linux keycode
and shift flag to an ASCII character, `'\x00'` meaning "no mapping".
`shift` is a C int tested for truthiness (`if (shift)`). -/
def keymap (code : Nat) (shift : Nat) : Char :=
  if shift ≠ 0 then
    if code = KEY_1 then '!'
    else if code = KEY_2 then '@'
    else if code = KEY_3 then '#'
    else if code = KEY_4 then '$'
    else if code = KEY_5 then '%'
    else if code = KEY_6 then '^'
    else if code = KEY_7 then '&'
    else if code = KEY_8 then '*'
    else if code = KEY_9 then '('
    else if code = KEY_0 then ')'
    else if code = KEY_MINUS then '_'
    else if code = KEY_EQUAL then '+'
    else if code = KEY_Q then 'Q'
    else if code = KEY_W then 'W'
    else if code = KEY_E then 'E'
    else if code = KEY_R then 'R'
    else if code = KEY_T then 'T'
    else if code = KEY_Y then 'Y'
    else if code = KEY_U then 'U'
    else if code = KEY_I then 'I'
    else if code = KEY_O then 'O'
    else if code = KEY_P then 'P'
    else if code = KEY_LEFTBRACE then '\x7b'
    else if code = KEY_RIGHTBRACE then '\x7d'
    else if code = KEY_A then 'A'
    else if code = KEY_S then 'S'
    else if code = KEY_D then 'D'
    else if code = KEY_F then 'F'
    else if code = KEY_G then 'G'
    else if code = KEY_H then 'H'
    else if code = KEY_J then 'J'
    else if code = KEY_K then 'K'
    else if code = KEY_L then 'L'
    else if code = KEY_SEMICOLON then ':'
    else if code = KEY_APOSTROPHE then '\x22'
    else if code = KEY_GRAVE then '~'
    else if code = KEY_BACKSLASH then '|'
    else if code = KEY_Z then 'Z'
    else if code = KEY_X then 'X'
    else if code = KEY_C then 'C'
    else if code = KEY_V then 'V'
    else if code = KEY_B then 'B'
    else if code = KEY_N then 'N'
    else if code = KEY_M then 'M'
    else if code = KEY_COMMA then '<'
    else if code = KEY_DOT then '>'
    else if code = KEY_SLASH then '?'
    else if code = KEY_SPACE then ' '
    else '\x00'
  else
    if code = KEY_1 then '1'
    else if code = KEY_2 then '2'
    else if code = KEY_3 then '3'
    else if code = KEY_4 then '4'
    else if code = KEY_5 then '5'
    else if code = KEY_6 then '6'
    else if code = KEY_7 then '7'
    else if code = KEY_8 then '8'
    else if code = KEY_9 then '9'
    else if code = KEY_0 then '0'
    else if code = KEY_MINUS then '-'
    else if code = KEY_EQUAL then '='
    else if code = KEY_Q then 'q'
    else if code = KEY_W then 'w'
    else if code = KEY_E then 'e'
    else if code = KEY_R then 'r'
    else if code = KEY_T then 't'
    else if code = KEY_Y then 'y'
    else if code = KEY_U then 'u'
    else if code = KEY_I then 'i'
    else if code = KEY_O then 'o'
    else if code = KEY_P then 'p'
    else if code = KEY_LEFTBRACE then '['
    else if code = KEY_RIGHTBRACE then ']'
    else if code = KEY_A then 'a'
    else if code = KEY_S then 's'
    else if code = KEY_D then 'd'
    else if code = KEY_F then 'f'
    else if code = KEY_G then 'g'
    else if code = KEY_H then 'h'
    else if code = KEY_J then 'j'
    else if code = KEY_K then 'k'
    else if code = KEY_L then 'l'
    else if code = KEY_SEMICOLON then ';'
    else if code = KEY_APOSTROPHE then '\x27'
    else if code = KEY_GRAVE then '\x60'
    else if code = KEY_BACKSLASH then '\x5c'
    else if code = KEY_Z then 'z'
    else if code = KEY_X then 'x'
    else if code = KEY_C then 'c'
    else if code = KEY_V then 'v'
    else if code = KEY_B then 'b'
    else if code = KEY_N then 'n'
    else if code = KEY_M then 'm'
    else if code = KEY_COMMA then ','
    else if code = KEY_DOT then '.'
    else if code = KEY_SLASH then '/'
    else if code = KEY_SPACE then ' '
    else '\x00'

/-- One `struct input_event` as used by scan.c: `type` and `code` are
`__u16`, `value` is `__s32` (0 = release, 1 = press, 2 = auto-repeat). -/
structure KeyEvent where
  type : Nat
  code : Nat
  value : Int
deriving DecidableEq, Repr

/-- Outcome of the inner event-processing block of `scan` for one event:
either the read loop continues with an updated buffer and shift state, or
the `break` statement fired (the buffer was finalized with a terminating
NUL at index `buf.length`). -/
inductive StepResult where
  | cont (buf : List Char) (shift : Nat)
  | brk (buf : List Char) (shift : Nat)
deriving DecidableEq, Repr

/-- Buffer component of a `StepResult`. -/
def StepResult.buf : StepResult → List Char
  | .cont b _ => b
  | .brk b _ => b

/-- Shift component of a `StepResult`. -/
def StepResult.shiftState : StepResult → Nat
  | .cont _ s => s
  | .brk _ s => s

/-- The body of the inner read loop of `scan` (scan.c lines 197-220),
processing one `input_event` given the current buffer contents (the first
`codecounter` cells of `code[]`) and the `shift` flag. Mirrors the exact
branch order of the C source. -/
def processEvent (buf : List Char) (shift : Nat) (e : KeyEvent) : StepResult :=
  if e.type = EV_KEY then
    if e.value = 0 ∧ (e.code = KEY_LEFTSHIFT ∨ e.code = KEY_RIGHTSHIFT) then
      .cont buf 0
    else if e.value = 1 then
      if buf.length = MAXCODE - 1 ∨ e.code = KEY_ENTER then
        .brk buf shift
      else if e.code = KEY_LEFTSHIFT ∨ e.code = KEY_RIGHTSHIFT then
        .cont buf 1
      else if keymap e.code shift ≠ '\x00' then
        .cont (buf ++ [keymap e.code shift]) shift
      else
        .cont buf shift
    else
      .cont buf shift
  else
    .cont buf shift

/-- Outcome of one `read(scanfd, &keyevent, sizeof(keyevent))` call, supplied
by the environment. `ok e` is a successful full-record read (return value
`EVENT_SIZE`, buffer now holds `e`); `short n e` is a read returning
`n < EVENT_SIZE` bytes (`0` included), after which the `keyevent` struct
holds the partially-overwritten/stale contents `e`; `err` is a failed read
(return value `-1`). -/
inductive ReadResult where
  | ok (e : KeyEvent)
  | short (n : Nat) (e : KeyEvent)
  | err
deriving DecidableEq, Repr

/-- State at exit of the inner read loop of `scan`: the last value of
`readstatus`, whether the loop left via `break` (the buffer was finalized
with a NUL) or via a negative read status, the buffer contents and shift
flag, and the unconsumed remainder of the read stream. -/
structure LoopExit where
  status : Int
  broke : Bool
  buf : List Char
  shiftFlag : Nat
  rest : List ReadResult
deriving DecidableEq, Repr

/-- The inner read loop of `scan` (scan.c line 189:
`while ((readstatus = read(...)) >= 0) { ... }`): keeps reading while the
read status is non-negative, processing each record through the event
block; exits on a negative status or on `break`. Returns `none` when the
environment's read stream is exhausted (the C program would block in
`read` forever). -/
def readLoop : List ReadResult → List Char → Nat → Option LoopExit
  | [], _, _ => none
  | .err :: rest, buf, shift => some ⟨-1, false, buf, shift, rest⟩
  | .ok e :: rest, buf, shift =>
    match processEvent buf shift e with
    | .cont b s => readLoop rest b s
    | .brk b s => some ⟨(EVENT_SIZE : Int), true, b, s, rest⟩
  | .short n e :: rest, buf, shift =>
    match processEvent buf shift e with
    | .cont b s => readLoop rest b s
    | .brk b s => some ⟨(n : Int), true, b, s, rest⟩

/-- Outcome of one `poll(&mypoll, 1, 800)` call: `timeout` returns 0,
`ready` returns 1 (one ready descriptor), `perr` returns -1. -/
inductive PollResult where
  | timeout
  | ready
  | perr
deriving DecidableEq, Repr

/-- The C return value of a poll outcome. -/
def pollVal : PollResult → Int
  | .timeout => 0
  | .ready => 1
  | .perr => -1

/-- Observable actions of `scan`: GPIO writes (`digitalWrite(SCANPIN, ...)`),
the bounded poll, the settle sleep, the two stderr diagnostics, and the
`printf("%s\n", code)` output. `printCode s` is that printf on a run where
the just-finished read loop wrote the terminating NUL, so the printed line
is exactly the accumulated characters `s`; `printStale` is the same printf
reached without a `break` (negative read status skipped the error branch),
where the printed bytes are whatever the unfinalized `code[]` array holds
— indeterminate, so the model does not assign them. -/
inductive ScanAct where
  | setPin (high : Bool)
  | pollWait (ms : Nat)
  | sleepUs (us : Nat)
  | reportScanErr
  | reportPollErr
  | printCode (s : List Char)
  | printStale
deriving DecidableEq, Repr

/-- Is an action a write to standard output? -/
def isPrintAct : ScanAct → Bool
  | .printCode _ => true
  | .printStale => true
  | _ => false

/-- The comparison `readstatus < sizeof(keyevent)` from scan.c line 222.
`readstatus` is a C `int` and `sizeof` yields `size_t`, so the usual
arithmetic conversions convert `readstatus` to the unsigned `size_t`
(64-bit here) before comparing: `-1` becomes `2^64 - 1`, which is not
below `EVENT_SIZE`. -/
def ltSizeT (readstatus : Int) : Bool :=
  decide (readstatus % (2 ^ 64 : Int) < (EVENT_SIZE : Int))

/-- The per-try actions of a try whose poll times out: scanner on, bounded
wait, scanner off, 200 ms settle sleep. -/
def timeoutBlock : List ScanAct :=
  [.setPin true, .pollWait 800, .setPin false, .sleepUs 200000]

/-- The outer retry loop of `scan` (scan.c lines 184-242):
`while (trycount < tries && !err)`. Each iteration drives the pin HIGH and
polls; a zero poll result falls through to the common
pin-LOW/settle-sleep/`trycount++` epilogue and loops; a nonzero poll result
(`1` ready or `-1` error — the C condition `if (err = poll(...))` is taken
for both, which is why the `else if (err < 0)` polling-error branch below
it can never run) enters the read loop, and after it either returns `-1`
through the read-error branch or prints the buffer, runs the epilogue and
leaves the loop because `!err` is now false, returning 0. Result: the
action trace and the return value of `scan`; `none` when the program would
block forever on input the environment never delivers. -/
def scanLoop (tries : Int) (reads : List ReadResult) :
    List PollResult → Int → List Char → Nat → Option (List ScanAct × Int)
  | [], trycount, _, _ =>
    if trycount < tries then none else some ([], 0)
  | p :: ps, trycount, buf, shift =>
    if trycount < tries then
      if pollVal p ≠ 0 then
        match readLoop reads buf shift with
        | none => none
        | some ex =>
          if ltSizeT ex.status then
            some ([.setPin true, .pollWait 800, .reportScanErr, .setPin false], -1)
          else
            some ([.setPin true, .pollWait 800,
                   if ex.broke then .printCode ex.buf else .printStale,
                   .setPin false, .sleepUs 200000], 0)
      else if pollVal p < 0 then
        -- unreachable in the C source: `if (err = poll(...))` already took
        -- every nonzero value, so `else if (err < 0)` is dead code
        some ([.setPin true, .pollWait 800, .reportPollErr, .setPin false], -1)
      else
        (scanLoop tries reads ps (trycount + 1) buf shift).map
          (fun r => (timeoutBlock ++ r.1, r.2))
    else some ([], 0)

/-- The C function `int scan(const int tries)`: buffer starts empty
(`codecounter = 0`), shift flag starts 0, try counter starts 0. -/
def scan (tries : Int) (polls : List PollResult) (reads : List ReadResult) :
    Option (List ScanAct × Int) :=
  scanLoop tries reads polls 0 [] 0

/-- C `isspace` on the default locale, as consumed by `atoi`. -/
def isSpaceC (c : Char) : Bool :=
  c = ' ' || c = '\t' || c = '\n' || c = '\x0b' || c = '\x0c' || c = '\r'

/-- Accumulate a decimal digit run, stopping at the first non-digit
(the digit-consuming loop inside C `atoi`). -/
def digitsVal : List Char → Int → Int
  | [], acc => acc
  | c :: cs, acc =>
    if c.isDigit then digitsVal cs (acc * 10 + ((c.toNat : Int) - 48)) else acc

/-- C library `atoi`: skip leading whitespace, consume one optional sign,
then a digit run; no digits gives 0. (Overflow, undefined in C, is not
modelled.) -/
def atoi (s : List Char) : Int :=
  match s.dropWhile isSpaceC with
  | [] => 0
  | c :: cs =>
    if c = '-' then - digitsVal cs 0
    else if c = '+' then digitsVal cs 0
    else digitsVal (c :: cs) 0

/-- The `switch (argc)` of `main` (scan.c lines 245-254): one argument
beyond the program name goes through `atoi`, otherwise `INT_MAX`. -/
def tryBudget : List (List Char) → Int
  | [_, a] => atoi a
  | _ => INT_MAX

/-- `main`: runs `scan` with the budget derived from `argv`; the process
exit status is `scan`'s return value. -/
def mainRun (argv : List (List Char)) (polls : List PollResult)
    (reads : List ReadResult) : Option (List ScanAct × Int) :=
  scan (tryBudget argv) polls reads

/-- All intermediate (buffer, shift) states of the event-processing block,
starting from the given state and stopping at a `break`. Head is the
initial state. -/
def accumStates : List KeyEvent → List Char → Nat → List (List Char × Nat)
  | [], buf, shift => [(buf, shift)]
  | e :: es, buf, shift =>
    (buf, shift) ::
      (match processEvent buf shift e with
       | .cont b s => accumStates es b s
       | .brk b s => [(b, s)])

/-- A key-press event that appends a character under shift state 0: a key
whose unshifted translation is defined (which rules out Enter and the two
shift keys, whose translations are `'\x00'`). -/
def goodPress (e : KeyEvent) : Prop :=
  e.type = EV_KEY ∧ e.value = 1 ∧ keymap e.code 0 ≠ '\x00'

instance (e : KeyEvent) : Decidable (goodPress e) := by
  unfold goodPress
  infer_instance

/-- Press of the `1` key. -/
def key1press : KeyEvent := ⟨EV_KEY, KEY_1, 1⟩

/-- Press of the Enter key. -/
def enterPress : KeyEvent := ⟨EV_KEY, KEY_ENTER, 1⟩

/-! ### Helper lemmas -/

/-- A press of a key with a defined unshifted translation, seen below
capacity, appends exactly that character and keeps the shift flag 0. -/
lemma processEvent_goodPress (buf : List Char) (e : KeyEvent) (hg : goodPress e)
    (hlen : buf.length < MAXCODE - 1) :
    processEvent buf 0 e = .cont (buf ++ [keymap e.code 0]) 0 := by
  obtain ⟨ht, hv, hk⟩ := hg
  have h28 : e.code ≠ KEY_ENTER := fun h => hk (by rw [h]; rfl)
  have h42 : e.code ≠ KEY_LEFTSHIFT := fun h => hk (by rw [h]; rfl)
  have h54 : e.code ≠ KEY_RIGHTSHIFT := fun h => hk (by rw [h]; rfl)
  have hne : buf.length ≠ MAXCODE - 1 := Nat.ne_of_lt hlen
  simp [processEvent, ht, hv, h28, h42, h54, hk, hne]

/-- Any key press seen when the buffer is at capacity fires the `break`. -/
lemma processEvent_atCapacity (buf : List Char) (s : Nat) (e : KeyEvent)
    (ht : e.type = EV_KEY) (hv : e.value = 1) (hlen : buf.length = MAXCODE - 1) :
    processEvent buf s e = .brk buf s := by
  simp [processEvent, ht, hv, hlen]

/-- Running the read loop over a block of appending presses accumulates
their translations and continues with the rest of the stream. -/
lemma readLoop_goodPresses (es : List KeyEvent) (buf : List Char)
    (tail : List ReadResult) (hall : ∀ e ∈ es, goodPress e)
    (hlen : buf.length + es.length ≤ MAXCODE - 1) :
    readLoop (es.map .ok ++ tail) buf 0 =
      readLoop tail (buf ++ es.map (fun e => keymap e.code 0)) 0 := by
  induction es generalizing buf with
  | nil => simp
  | cons e es ih =>
    have hg := hall e (List.mem_cons_self e es)
    have hlt : buf.length < MAXCODE - 1 := by
      simp only [List.length_cons] at hlen; omega
    have hpe := processEvent_goodPress buf e hg hlt
    rw [List.map_cons, List.cons_append]
    rw [show readLoop (.ok e :: (es.map .ok ++ tail)) buf 0 =
          (match processEvent buf 0 e with
           | .cont b s => readLoop (es.map .ok ++ tail) b s
           | .brk b s => some ⟨(EVENT_SIZE : Int), true, b, s, es.map .ok ++ tail⟩)
        from rfl, hpe]
    dsimp only
    rw [ih (buf ++ [keymap e.code 0])
          (fun x hx => hall x (List.mem_cons_of_mem e hx))
          (by simp only [List.length_append, List.length_singleton,
                List.length_cons, List.length_nil] at hlen ⊢; omega)]
    simp

/-- The buffer length never grows past `MAXCODE - 1` in one step. -/
lemma processEvent_len (buf : List Char) (s : Nat) (e : KeyEvent)
    (hb : buf.length ≤ MAXCODE - 1) :
    (processEvent buf s e).buf.length ≤ MAXCODE - 1 := by
  unfold processEvent
  split_ifs with h1 h2 h3 h4 h5 h6 <;>
    simp only [StepResult.buf, List.length_append, List.length_singleton] <;>
    omega

/-- Every intermediate state of the event-processing block keeps the
buffer within `MAXCODE - 1` characters. -/
lemma accumStates_bound (es : List KeyEvent) (buf : List Char) (s : Nat)
    (hb : buf.length ≤ MAXCODE - 1) :
    ∀ st ∈ accumStates es buf s, st.1.length ≤ MAXCODE - 1 := by
  induction es generalizing buf s with
  | nil =>
    intro st hst
    simp only [accumStates, List.mem_singleton] at hst
    rw [hst]
    exact hb
  | cons e es ih =>
    intro st hst
    rw [accumStates] at hst
    rcases List.mem_cons.mp hst with h | h
    · rw [h]; exact hb
    · have hlen := processEvent_len buf s e hb
      cases hpe : processEvent buf s e with
      | cont b s2 =>
        rw [hpe] at h
        rw [hpe] at hlen
        exact ih b s2 hlen st h
      | brk b s2 =>
        rw [hpe] at h
        rw [hpe] at hlen
        simp only [List.mem_singleton] at h
        rw [h]
        exact hlen

/-- Concatenated action count over replicated blocks. -/
lemma count_flatten_replicate (n : Nat) (l : List ScanAct) (a : ScanAct) :
    ((List.replicate n l).flatten).count a = n * l.count a := by
  induction n with
  | zero => simp
  | succ k ih =>
    rw [List.replicate_succ, List.flatten_cons, List.count_append, ih]
    ring

/-- Concatenated predicate count over replicated blocks. -/
lemma countP_flatten_replicate (n : Nat) (l : List ScanAct) (p : ScanAct → Bool) :
    ((List.replicate n l).flatten).countP p = n * l.countP p := by
  induction n with
  | zero => simp
  | succ k ih =>
    rw [List.replicate_succ, List.flatten_cons, List.countP_append, ih]
    ring

/-- A run of `n` fruitless polls starting at try count `t` with budget
`t + n` makes exactly `n` passes of the timeout block and returns 0. -/
lemma scanLoop_timeouts (n : Nat) (t : Int) (reads : List ReadResult)
    (buf : List Char) (s : Nat) :
    scanLoop (t + n) reads (List.replicate n .timeout) t buf s =
      some ((List.replicate n timeoutBlock).flatten, 0) := by
  induction n generalizing t with
  | zero =>
    simp [scanLoop]
  | succ k ih =>
    have ht : t < t + ((k : Nat) + 1 : Nat) := by
      push_cast
      omega
    rw [List.replicate_succ]
    rw [show scanLoop (t + ((k : Nat) + 1 : Nat)) reads
          (.timeout :: List.replicate k .timeout) t buf s =
        (if t < t + ((k : Nat) + 1 : Nat) then
          if pollVal .timeout ≠ 0 then
            match readLoop reads buf s with
            | none => none
            | some ex =>
              if ltSizeT ex.status then
                some ([.setPin true, .pollWait 800, .reportScanErr, .setPin false], -1)
              else
                some ([.setPin true, .pollWait 800,
                       if ex.broke then .printCode ex.buf else .printStale,
                       .setPin false, .sleepUs 200000], 0)
          else if pollVal .timeout < 0 then
            some ([.setPin true, .pollWait 800, .reportPollErr, .setPin false], -1)
          else
            (scanLoop (t + ((k : Nat) + 1 : Nat)) reads
                (List.replicate k .timeout) (t + 1) buf s).map
              (fun r => (timeoutBlock ++ r.1, r.2))
        else some ([], 0)) from rfl]
    rw [if_pos ht]
    have hpv : ¬ (pollVal .timeout ≠ 0) := by decide
    rw [if_neg hpv, if_neg (by decide : ¬ (pollVal .timeout < 0))]
    have harg : t + ((k : Nat) + 1 : Nat) = (t + 1) + (k : Nat) := by
      push_cast
      omega
    rw [harg, ih (t + 1)]
    rw [List.replicate_succ, List.flatten_cons]
    rfl

/-- A digit run starting with a non-digit (or empty) contributes nothing. -/
lemma digitsVal_head_nondigit (cs : List Char) (acc : Int)
    (h : ∀ c ∈ cs, c.isDigit = false) : digitsVal cs acc = acc := by
  cases cs with
  | nil => rfl
  | cons c cs2 => simp [digitsVal, h c (List.mem_cons_self c cs2)]

/-- C `atoi` returns 0 on a string with no digit characters. -/
lemma atoi_no_digits (arg : List Char) (hnd : ∀ c ∈ arg, c.isDigit = false) :
    atoi arg = 0 := by
  have hsub : ∀ c ∈ arg.dropWhile isSpaceC, c.isDigit = false := fun c hc =>
    hnd c (List.dropWhile_subset isSpaceC hc)
  unfold atoi
  cases h : arg.dropWhile isSpaceC with
  | nil => rfl
  | cons c cs =>
    have hmem : ∀ x ∈ c :: cs, x.isDigit = false := h ▸ hsub
    by_cases hm : c = '-'
    · simp [hm, digitsVal_head_nondigit cs 0
        (fun x hx => hmem x (List.mem_cons_of_mem c hx))]
    · by_cases hp : c = '+'
      · simp [hm, hp, digitsVal_head_nondigit cs 0
          (fun x hx => hmem x (List.mem_cons_of_mem c hx))]
      · simp [hm, hp, digitsVal_head_nondigit (c :: cs) 0 hmem]

/-- A first try whose poll signals readiness and whose read loop leaves via
`break` with a full last read prints the finalized buffer, lowers the pin,
sleeps the settle interval, and makes `scan` return 0 with no further
tries (the while condition `!err` is now false). -/
lemma scan_ready_broke (tries : Int) (polls : List PollResult)
    (reads : List ReadResult) (b : List Char) (s : Nat)
    (rest : List ReadResult) (htr : 0 < tries)
    (hr : readLoop reads [] 0 = some ⟨(EVENT_SIZE : Int), true, b, s, rest⟩) :
    scan tries (.ready :: polls) reads =
      some ([.setPin true, .pollWait 800, .printCode b,
             .setPin false, .sleepUs 200000], 0) := by
  have hlt : ltSizeT (EVENT_SIZE : Int) = false := by decide
  simp [scan, scanLoop, pollVal, htr, hr, hlt]

/-! ### Claim theorems -/

/-- Claim C1 (code bug at the failing input): a read during accumulation
fails, returning -1, yet nothing is reported, the pin-LOW/settle epilogue
runs as on a soft timeout, the unfinalized buffer is printed, and `scan`
returns 0 — because `readstatus < sizeof(keyevent)` (scan.c line 222)
compares a signed `int` against `size_t`, converting -1 to `2^64 - 1`, so
the error branch is skipped. The claim (and scan.c's own contract
"Returns: 0 on success, -1 on error") requires a diagnostic report and an
immediate -1. -/
theorem C1_read_error_branch_skipped :
    scan 5 [.ready] [.err] =
      some ([.setPin true, .pollWait 800, .printStale,
             .setPin false, .sleepUs 200000], 0) ∧
    ([ScanAct.setPin true, .pollWait 800, .printStale,
      .setPin false, .sleepUs 200000].count .reportScanErr = 0) := by
  decide

/-- Claim C2 (code bug at the failing input): the readiness wait fails
(`poll` returns -1), yet the run reports no polling error and returns 0:
`if (err = poll(...))` (scan.c line 188) is truthy for -1, so the read
loop branch is taken and the `else if (err < 0)` polling-error branch is
unreachable dead code. The claim requires the polling-error report branch,
pin LOW, and an immediate abort of all tries. -/
theorem C2_poll_error_branch_dead :
    scan 5 [.perr] [.err] =
      some ([.setPin true, .pollWait 800, .printStale,
             .setPin false, .sleepUs 200000], 0) ∧
    ([ScanAct.setPin true, .pollWait 800, .printStale,
      .setPin false, .sleepUs 200000].count .reportPollErr = 0) := by
  decide

/-- Claim C3 counterexample: a successful single-scan run (Enter pressed
immediately) produces the trace
`[pin HIGH, poll, print, pin LOW, sleep 200ms]` — the pin IS driven LOW
once, and the 200 ms settle sleep runs, after the success print and before
`scan` returns, contradicting "returns immediately without driving the
output pin LOW — the pin is not lowered on the success path". -/
theorem C3_pin_lowered_on_success :
    scan 5 [.ready] [.ok enterPress] =
      some ([.setPin true, .pollWait 800, .printCode [],
             .setPin false, .sleepUs 200000], 0) ∧
    ([ScanAct.setPin true, .pollWait 800, .printCode [],
      .setPin false, .sleepUs 200000].count (.setPin false) = 1) ∧
    ([ScanAct.setPin true, .pollWait 800, .printCode [],
      .setPin false, .sleepUs 200000].count (.sleepUs 200000) = 1) := by
  decide

/-- Claim C3 amended: on the success terminal transition no further tries
are attempted (the nonzero poll result ends the outer while loop), but
before returning 0 the code falls through the common epilogue: it drives
the output pin LOW and sleeps the 200 ms settle interval after printing
the decoded code. -/
theorem C3_success_settle_then_stop (tries : Int) (polls : List PollResult)
    (reads : List ReadResult) (b : List Char) (s : Nat)
    (rest : List ReadResult) (htr : 0 < tries)
    (hr : readLoop reads [] 0 = some ⟨(EVENT_SIZE : Int), true, b, s, rest⟩) :
    scan tries (.ready :: polls) reads =
      some ([.setPin true, .pollWait 800, .printCode b,
             .setPin false, .sleepUs 200000], 0) :=
  scan_ready_broke tries polls reads b s rest htr hr

/-- Claim C3 amended, witness at a concrete input. -/
theorem C3_success_settle_then_stop_witness :
    (0 : Int) < 1 ∧
    readLoop [.ok enterPress] [] 0 =
      some ⟨(EVENT_SIZE : Int), true, [], 0, []⟩ ∧
    scan 1 [.ready] [.ok enterPress] =
      some ([.setPin true, .pollWait 800, .printCode [],
             .setPin false, .sleepUs 200000], 0) :=
  ⟨by decide, by decide,
   C3_success_settle_then_stop 1 [] [.ok enterPress] [] 0 [] (by decide) (by decide)⟩

/-- Claim C4 counterexample: exactly `MAXCODE - 1 = 63` mapped
non-terminator key presses (63 presses of the `1` key) do NOT finalize the
buffer — the read loop is still waiting for more input (no `break`, no
report), so `scan` stays blocked in `read` rather than printing. -/
theorem C4_exact_fill_not_finalized :
    readLoop ((List.replicate 63 key1press).map .ok) [] 0 = none ∧
    scan 1 [.ready] ((List.replicate 63 key1press).map .ok) = none := by
  decide

/-- Claim C4 amended: `MAXCODE - 1` mapped non-terminator key presses only
fill the buffer; they do not finalize it (first conjunct). Finalization
without Enter requires one further key-press event — any press, here an
arbitrary press `p` — whose capacity check fires the `break`: the
accumulated `MAXCODE - 1` characters are then printed, with the extra
press not appended. -/
theorem C4_fill_finalizes_on_next_press (es : List KeyEvent) (p : KeyEvent)
    (tries : Int) (rest : List ReadResult)
    (hall : ∀ e ∈ es, goodPress e) (hlen : es.length = MAXCODE - 1)
    (hpt : p.type = EV_KEY) (hpv : p.value = 1) (htr : 0 < tries) :
    readLoop (es.map .ok) [] 0 = none ∧
    scan tries [.ready] (es.map .ok ++ .ok p :: rest) =
      some ([.setPin true, .pollWait 800,
             .printCode (es.map (fun e => keymap e.code 0)),
             .setPin false, .sleepUs 200000], 0) := by
  constructor
  · have h0 : readLoop (es.map .ok ++ ([] : List ReadResult)) [] 0 =
        readLoop [] (([] : List Char) ++ es.map (fun e => keymap e.code 0)) 0 :=
      readLoop_goodPresses es [] [] hall (by simp [hlen])
    simpa using h0
  · have hacc : readLoop (es.map .ok ++ (.ok p :: rest)) [] 0 =
        readLoop (.ok p :: rest)
          (([] : List Char) ++ es.map (fun e => keymap e.code 0)) 0 :=
      readLoop_goodPresses es [] (.ok p :: rest) hall (by simp [hlen])
    have hlenbuf : (es.map (fun e => keymap e.code 0)).length = MAXCODE - 1 := by
      simp [hlen]
    have hbrk := processEvent_atCapacity (es.map (fun e => keymap e.code 0))
      0 p hpt hpv hlenbuf
    have hrl : readLoop (.ok p :: rest) (es.map (fun e => keymap e.code 0)) 0 =
        some ⟨(EVENT_SIZE : Int), true, es.map (fun e => keymap e.code 0),
              0, rest⟩ := by
      rw [show readLoop (.ok p :: rest) (es.map (fun e => keymap e.code 0)) 0 =
          (match processEvent (es.map (fun e => keymap e.code 0)) 0 p with
           | .cont b s => readLoop rest b s
           | .brk b s => some ⟨(EVENT_SIZE : Int), true, b, s, rest⟩)
          from rfl, hbrk]
    have hfull : readLoop (es.map .ok ++ .ok p :: rest) [] 0 =
        some ⟨(EVENT_SIZE : Int), true, es.map (fun e => keymap e.code 0),
              0, rest⟩ := by
      rw [hacc, List.nil_append, hrl]
    exact scan_ready_broke tries [] (es.map .ok ++ .ok p :: rest)
      (es.map (fun e => keymap e.code 0)) 0 rest htr hfull

/-- Claim C4 amended, witness: 63 presses of the `1` key followed by a 64th
press of the same key. -/
theorem C4_fill_finalizes_on_next_press_witness :
    (∀ e ∈ List.replicate 63 key1press, goodPress e) ∧
    (List.replicate 63 key1press).length = MAXCODE - 1 ∧
    (readLoop ((List.replicate 63 key1press).map .ok) [] 0 = none ∧
     scan 1 [.ready]
         ((List.replicate 63 key1press).map .ok ++ .ok key1press :: []) =
       some ([.setPin true, .pollWait 800,
              .printCode ((List.replicate 63 key1press).map
                (fun e => keymap e.code 0)),
              .setPin false, .sleepUs 200000], 0)) :=
  ⟨by decide, by decide,
   C4_fill_finalizes_on_next_press (List.replicate 63 key1press) key1press
     1 [] (by decide) (by decide) rfl rfl (by decide)⟩

/-- Claim C5 counterexample: with the unparsable argument `"abc"`, the try
budget is `atoi("abc") = 0`, not `INT_MAX`: `scan(0)` returns 0 at once
without a single try, even when input would be ready. -/
theorem C5_unparsable_arg_zero_budget :
    tryBudget [['s', 'c', 'a', 'n'], ['a', 'b', 'c']] = 0 ∧
    ((0 : Int) = INT_MAX → False) ∧
    scan (tryBudget [['s', 'c', 'a', 'n'], ['a', 'b', 'c']]) [.ready] [] =
      some ([], 0) := by
  decide

/-- Claim C5 amended: an absent argument gives the `INT_MAX` budget, but a
present argument goes through C `atoi`, so an argument that does not parse
as an integer (no digit characters) gives a budget of 0 — zero tries, not
unlimited. -/
theorem C5_arg_budget (prog arg : List Char)
    (hnd : ∀ c ∈ arg, c.isDigit = false) :
    tryBudget [prog] = INT_MAX ∧ tryBudget [prog, arg] = 0 := by
  refine ⟨rfl, ?_⟩
  show atoi arg = 0
  exact atoi_no_digits arg hnd

/-- Claim C5 amended, witness at `"abc"`. -/
theorem C5_arg_budget_witness :
    (∀ c ∈ (['a', 'b', 'c'] : List Char), c.isDigit = false) ∧
    tryBudget [['s', 'c', 'a', 'n']] = INT_MAX ∧
    tryBudget [['s', 'c', 'a', 'n'], ['a', 'b', 'c']] = 0 :=
  ⟨by decide, C5_arg_budget ['s', 'c', 'a', 'n'] ['a', 'b', 'c'] (by decide)⟩

/-- Claim C6 (code bug at the failing input): invoked as `scan 5`, with the
first poll ready and the event read failing (-1) — a hard I/O error — the
process exit status is 0, not the propagated error code: the signed/
unsigned comparison on scan.c line 222 skips the error branch entirely.
(Even on the one path where the error branch is reachable, `scan` returns
the constant -1, not the platform error code.) -/
theorem C6_read_error_exit_zero :
    tryBudget [['s', 'c', 'a', 'n'], ['5']] = 5 ∧
    mainRun [['s', 'c', 'a', 'n'], ['5']] [.ready] [.err] =
      some ([.setPin true, .pollWait 800, .printStale,
             .setPin false, .sleepUs 200000], 0) := by
  decide

/-- Claim C7 confirmed: an Enter key-press finalizes the buffer immediately
whatever the current contents and shift state (first conjunct, fully
general), and a run whose only event is an Enter press prints exactly one
empty line (second conjunct). -/
theorem C7_enter_always_finalizes (buf : List Char) (s : Nat) :
    processEvent buf s enterPress = .brk buf s ∧
    scan 1 [.ready] [.ok enterPress] =
      some ([.setPin true, .pollWait 800, .printCode [],
             .setPin false, .sleepUs 200000], 0) := by
  constructor
  · simp [processEvent, enterPress]
  · decide

/-- Claim C8 confirmed: with a budget of `n` tries and a source that never
signals readiness, `scan` runs exactly `n` identical passes — pin HIGH,
one 800 ms-bounded poll, pin LOW, 200 ms settle sleep — and returns 0;
the trace contains exactly `n` polls, `n` HIGH writes, `n` LOW writes,
`n` settle sleeps, and no standard-output action at all. -/
theorem C8_retry_exhaustion_trace (n : Nat) (reads : List ReadResult) :
    scan (n : Int) (List.replicate n .timeout) reads =
      some ((List.replicate n timeoutBlock).flatten, 0) ∧
    ((List.replicate n timeoutBlock).flatten).count (.pollWait 800) = n ∧
    ((List.replicate n timeoutBlock).flatten).count (.setPin true) = n ∧
    ((List.replicate n timeoutBlock).flatten).count (.setPin false) = n ∧
    ((List.replicate n timeoutBlock).flatten).count (.sleepUs 200000) = n ∧
    ((List.replicate n timeoutBlock).flatten).countP isPrintAct = 0 := by
  refine ⟨?_, ?_, ?_, ?_, ?_, ?_⟩
  · have h := scanLoop_timeouts n 0 reads [] 0
    rw [zero_add] at h
    exact h
  · rw [count_flatten_replicate]
    simp [timeoutBlock]
  · rw [count_flatten_replicate]
    simp [timeoutBlock]
  · rw [count_flatten_replicate]
    simp [timeoutBlock]
  · rw [count_flatten_replicate]
    simp [timeoutBlock]
  · rw [countP_flatten_replicate]
    simp [timeoutBlock, isPrintAct]

/-- Claim C9 confirmed: along any event sequence processed from the start
of a try (`codecounter = 0`, `shift = 0`), every intermediate state keeps
the buffer at no more than `MAXCODE - 1` characters — so each character
write lands at an index `< MAXCODE - 1` and the finalizing NUL at an index
`≤ MAXCODE - 1 < MAXCODE`, all within the `MAXCODE`-element array — and
the initial state has the shift flag 0 (false). -/
theorem C9_buffer_bound_invariant (es : List KeyEvent) (st : List Char × Nat)
    (hmem : st ∈ accumStates es [] 0) :
    st.1.length ≤ MAXCODE - 1 ∧
    (accumStates es [] 0).head? = some ([], 0) := by
  refine ⟨accumStates_bound es [] 0 (by simp) st hmem, ?_⟩
  cases es <;> rfl

/-- Claim C9 witness: the state trace of a single `1` press. -/
theorem C9_buffer_bound_invariant_witness :
    ((['1'], 0) : List Char × Nat) ∈ accumStates [key1press] [] 0 ∧
    ((['1'] : List Char).length ≤ MAXCODE - 1 ∧
     (accumStates [key1press] [] 0).head? = some ([], 0)) :=
  ⟨by decide, C9_buffer_bound_invariant [key1press] (['1'], 0) (by decide)⟩

/-- Claim C10 confirmed: a key event whose transition value is neither 0
(release) nor 1 (press) — Linux auto-repeat events carry value 2 — and a
release (value 0) of any non-shift key leave the buffer, the character
count, and the shift flag exactly as they were: the event block continues
with an unchanged state, so held keys never produce duplicate characters. -/
theorem C10_nonpress_noop (buf : List Char) (s : Nat) (e : KeyEvent)
    (h : (e.value ≠ 0 ∧ e.value ≠ 1) ∨
         (e.value = 0 ∧ e.code ≠ KEY_LEFTSHIFT ∧ e.code ≠ KEY_RIGHTSHIFT)) :
    processEvent buf s e = .cont buf s := by
  unfold processEvent
  rcases h with ⟨h0, h1⟩ | ⟨h0, h42, h54⟩ <;>
    split_ifs <;>
    first
      | rfl
      | tauto
      | omega

/-- Claim C10 witness: an auto-repeat (value 2) of the `a` key and a
release (value 0) of the `a` key, both on a nonempty buffer with the shift
flag set. -/
theorem C10_nonpress_noop_witness :
    ((((2 : Int) ≠ 0 ∧ (2 : Int) ≠ 1) ∨
      ((2 : Int) = 0 ∧ KEY_A ≠ KEY_LEFTSHIFT ∧ KEY_A ≠ KEY_RIGHTSHIFT)) ∧
     processEvent ['x'] 1 ⟨EV_KEY, KEY_A, 2⟩ = .cont ['x'] 1) ∧
    ((((0 : Int) ≠ 0 ∧ (0 : Int) ≠ 1) ∨
      ((0 : Int) = 0 ∧ KEY_A ≠ KEY_LEFTSHIFT ∧ KEY_A ≠ KEY_RIGHTSHIFT)) ∧
     processEvent ['x'] 1 ⟨EV_KEY, KEY_A, 0⟩ = .cont ['x'] 1) :=
  ⟨⟨Or.inl (by decide),
    C10_nonpress_noop ['x'] 1 ⟨EV_KEY, KEY_A, 2⟩ (Or.inl (by decide))⟩,
   ⟨Or.inr (by decide),
    C10_nonpress_noop ['x'] 1 ⟨EV_KEY, KEY_A, 0⟩ (Or.inr (by decide))⟩⟩
